import Mathlib

/-!
# Verification of the hand-gesture music pipeline

Shallow embedding of the gesture-to-sound core of the repository:

* `gesture_recognizer.py` — zone grid, position-to-note lookup, finger-pattern
  classification, hand-movement controls, `analyze_hand`;
* `midi_generator.py` — the note sequencer (`process_gestures`,
  `_create_note_event`, `_stop_note`, `_stop_all_notes`, `_process_controls`);
* `audio_engine.py` — the ADSR envelope (`_calculate_envelope`).

Modelling conventions:

* Python floats are modelled as exact rationals (`ℚ`); `np.sqrt` (whose exact
  value no claim depends on) is passed in as an explicit function parameter.
* Python `int(x)` (truncation toward zero) is `pyInt`.
* Python dicts with a fixed key set are structures; a possibly-missing key is
  an `Option` field; the per-finger dict keyed by the five finger names is the
  structure `FingerStates`.  Python `dict` iteration order is insertion order,
  so the zone dict is a list in insertion order.
* `threading.Lock` is non-reentrant: acquiring it while it is held blocks the
  calling thread forever.  Blocking (and `KeyError`) are modelled by `Option`
  (`none` = the call never returns) resp. `Except String`.
* Wall-clock timestamps carried in event payloads are irrelevant to every
  claim and are omitted from `MidiEvent`; `time.time()` is an explicit `now`
  parameter where its value matters.
-/

namespace HGMusic

/-! ## MIDI events (`midi_generator.py` event dictionaries) -/

/-- The event dictionaries built by `MIDIGenerator`, as a closed variant.
Fields are in the order note/control first, then value, then channel. -/
inductive MidiEvent where
  | note_on (note velocity channel : ℤ)
  | note_off (note velocity channel : ℤ)
  | control_change (control value channel : ℤ)
  | pitchwheel (pitch channel : ℤ)
deriving DecidableEq, Repr

/-- `MIDIGenerator.default_velocity = 64`. -/
def default_velocity : ℤ := 64

/-- `MIDIGenerator.default_channel = 0`. -/
def default_channel : ℤ := 0

/-- Python `int(x)`: truncation toward zero. -/
def pyInt (q : ℚ) : ℤ := if 0 ≤ q then ⌊q⌋ else ⌈q⌉

/-! ## MIDI generator state -/

/-- The mutable state of `MIDIGenerator` relevant to sequencing:
`current_notes` (a Python `set` of ints, kept as a list in iteration order),
the `sustain_pedal` flag, and whether `note_lock` is currently held. -/
structure MidiState where
  current_notes : List ℤ
  sustain_pedal : Bool
  note_lock : Bool
deriving DecidableEq, Repr

/-- Acquiring `note_lock` (`threading.Lock`, non-reentrant): if it is already
held the acquiring call blocks forever (`none`). -/
def acquire (s : MidiState) : Option MidiState :=
  if s.note_lock then none else some { s with note_lock := true }

/-- Releasing `note_lock` (leaving a `with self.note_lock:` block). -/
def release (s : MidiState) : MidiState := { s with note_lock := false }

/-- The note dictionaries produced by the recognizer and consumed by
`_create_note_event` (`.get` with defaults, hence `Option` fields). -/
structure NoteData where
  note_number : Option ℤ
  velocity : Option ℤ
  note_name : Option String
  finger : Option String
deriving DecidableEq, Repr

/-- `MIDIGenerator._create_note_event`: `None` note number yields no event;
otherwise clamp note to [0,127] and velocity to [1,127], and under the lock
suppress the trigger if the pitch is already in `current_notes`, else add it
and emit a note-on.  The outer `Option` is blocking, the inner `Option` is the
function's own `Optional` result. -/
def create_note_event (s : MidiState) (nd : NoteData) :
    Option (MidiState × Option MidiEvent) :=
  match nd.note_number with
  | none => some (s, none)
  | some n0 =>
    let note_number := max 0 (min 127 n0)
    let velocity := max 1 (min 127 (nd.velocity.getD default_velocity))
    match acquire s with
    | none => none
    | some s1 =>
      if note_number ∈ s1.current_notes then
        some (release s1, none)
      else
        some (release { s1 with current_notes := s1.current_notes ++ [note_number] },
              some (.note_on note_number velocity default_channel))

/-- `MIDIGenerator._stop_note`: under the lock discard the pitch from
`current_notes`, then return a note-off event (velocity 0). -/
def stop_note (s : MidiState) (note_number : ℤ) : Option (MidiState × MidiEvent) :=
  match acquire s with
  | none => none
  | some s1 =>
    some (release { s1 with current_notes := s1.current_notes.erase note_number },
          .note_off note_number 0 default_channel)

/-- The `for note_number in list(self.current_notes)` loop body of
`_stop_all_notes`, which calls `self._stop_note` on each pitch. -/
def stop_all_notes_loop (s : MidiState) : List ℤ → Option (MidiState × List MidiEvent)
  | [] => some (s, [])
  | n :: rest =>
    match stop_note s n with
    | none => none
    | some (s1, ev) =>
      match stop_all_notes_loop s1 rest with
      | none => none
      | some (s2, evs) => some (s2, ev :: evs)

/-- `MIDIGenerator._stop_all_notes`: acquire `note_lock`, loop `_stop_note`
over a snapshot of `current_notes` (each iteration re-acquires the same
non-reentrant lock), clear the set, release. -/
def stop_all_notes (s : MidiState) : Option (MidiState × List MidiEvent) :=
  match acquire s with
  | none => none
  | some s1 =>
    match stop_all_notes_loop s1 s1.current_notes with
    | none => none
    | some (s2, evs) => some (release { s2 with current_notes := [] }, evs)

/-- `MIDIGenerator._create_sustain_event`: ControlChange 64, value 127/0. -/
def create_sustain_event (sustain_on : Bool) : MidiEvent :=
  .control_change 64 (if sustain_on then 127 else 0) default_channel

/-- The continuous-control dictionary handed to `_process_controls`
(recognizer keys `pitch_bend`, `modulation`, `volume`, `position_x`,
`position_y`; only the first three are read by the MIDI generator). -/
structure Controls where
  pitch_bend : Option ℚ
  modulation : Option ℚ
  volume : Option ℚ
  position_x : Option ℚ
  position_y : Option ℚ
deriving DecidableEq, Repr

/-- A controls dictionary with no keys. -/
def emptyControls : Controls := ⟨none, none, none, none, none⟩

/-- `MIDIGenerator._process_controls`: pitch bend to a clamped 14-bit
pitchwheel value, modulation and volume to clamped 7-bit control changes. -/
def process_controls (c : Controls) : List MidiEvent :=
  (match c.pitch_bend with
   | some pb => [.pitchwheel (max 0 (min 16383 (pyInt (pb * 8192 + 8192)))) default_channel]
   | none => []) ++
  (match c.modulation with
   | some m => [.control_change 1 (max 0 (min 127 (pyInt (|m| * 127)))) default_channel]
   | none => []) ++
  (match c.volume with
   | some v => [.control_change 7 (max 0 (min 127 (pyInt (v * 127)))) default_channel]
   | none => [])

/-- The gesture dictionary returned by `GestureRecognizer.analyze_hand` and
consumed by `process_gestures` (`.get('action')` etc., hence `Option`s). -/
structure Gestures where
  handedness : String
  timestamp : ℚ
  notes : List NoteData
  controls : Controls
  extended_fingers : Option ℕ
  gesture_type : Option String
  action : Option String
deriving DecidableEq, Repr

/-- The `for note_data in notes` loop of `process_gestures`, appending the
events produced by `_create_note_event` when not `None`. -/
def process_notes (s : MidiState) : List NoteData → Option (MidiState × List MidiEvent)
  | [] => some (s, [])
  | nd :: rest =>
    match create_note_event s nd with
    | none => none
    | some (s1, ev) =>
      match process_notes s1 rest with
      | none => none
      | some (s2, evs) => some (s2, ev.toList ++ evs)

/-- `MIDIGenerator.process_gestures`: the action dispatch (stop-all /
sustain-on / sustain-off), then the note triggers, then the continuous
controls, with events concatenated in that order. -/
def process_gestures (s : MidiState) (g : Gestures) : Option (MidiState × List MidiEvent) :=
  let actionStep : Option (MidiState × List MidiEvent) :=
    if g.action = some "stop_all_notes" then
      stop_all_notes s
    else if g.action = some "sustain_notes" then
      some ({ s with sustain_pedal := true }, [create_sustain_event true])
    else
      some ({ s with sustain_pedal := false }, [create_sustain_event false])
  match actionStep with
  | none => none
  | some (s1, evs1) =>
    match process_notes s1 g.notes with
    | none => none
    | some (s2, evs2) => some (s2, evs1 ++ evs2 ++ process_controls g.controls)

/-! ## Gesture recognizer: finger states and pattern classification
(`gesture_recognizer.py`) -/

/-- The `finger_states` dictionary: `hand_tracker._calculate_finger_states`
always produces exactly the keys thumb/index/middle/ring/pinky. -/
structure FingerStates where
  thumb : Bool
  index : Bool
  middle : Bool
  ring : Bool
  pinky : Bool
deriving DecidableEq, Repr

/-- `finger_states.values()`, in dict insertion order. -/
def fsValues (fs : FingerStates) : List Bool :=
  [fs.thumb, fs.index, fs.middle, fs.ring, fs.pinky]

/-- `sum(1 for extended in finger_states.values() if extended)`: booleans sum
as 0/1, so this is the number of extended fingers. -/
def extendedCount (fs : FingerStates) : ℕ := (fsValues fs).count true

/-- `finger_states.get(name, False)` for a possibly-missing dict (`none`
models both a missing and an empty `finger_states` dict, whose `.get` is
`False` on every name either way). -/
def fsGet (fs : Option FingerStates) (name : String) : Bool :=
  match fs with
  | none => false
  | some fs =>
    if name = "thumb" then fs.thumb
    else if name = "index" then fs.index
    else if name = "middle" then fs.middle
    else if name = "ring" then fs.ring
    else if name = "pinky" then fs.pinky
    else false

/-- The all-folded finger map (behaviour of an empty `finger_states` dict). -/
def allFalse : FingerStates := ⟨false, false, false, false, false⟩

/-- `GestureRecognizer._is_fist`: `sum(finger_states.values()) == 0`. -/
def is_fist (fs : FingerStates) : Bool := extendedCount fs = 0

/-- `GestureRecognizer._is_open_hand`: `sum(finger_states.values()) >= 4`. -/
def is_open_hand (fs : FingerStates) : Bool := 4 ≤ extendedCount fs

/-- `GestureRecognizer._is_pointing`: index extended, middle/ring/pinky
folded.  The thumb is not consulted. -/
def is_pointing (fs : FingerStates) : Bool :=
  fs.index && !fs.middle && !fs.ring && !fs.pinky

/-- `GestureRecognizer._is_peace_sign`: index and middle extended, ring and
pinky folded.  The thumb is not consulted. -/
def is_peace_sign (fs : FingerStates) : Bool :=
  fs.index && fs.middle && !fs.ring && !fs.pinky

/-- The `patterns` dictionary built by `_recognize_gesture_patterns`. -/
structure GesturePatterns where
  extended_fingers : ℕ
  gesture_type : String
  action : String
deriving DecidableEq, Repr

/-- `GestureRecognizer._recognize_gesture_patterns`: fist / open hand /
pointing / peace sign tried in that order, with a `custom`/`multi_note`
fallback. -/
def recognize_gesture_patterns (fs : FingerStates) : GesturePatterns :=
  { extended_fingers := extendedCount fs
    gesture_type :=
      if is_fist fs then "fist"
      else if is_open_hand fs then "open_hand"
      else if is_pointing fs then "pointing"
      else if is_peace_sign fs then "peace"
      else "custom"
    action :=
      if is_fist fs then "stop_all_notes"
      else if is_open_hand fs then "sustain_notes"
      else if is_pointing fs then "single_note"
      else if is_peace_sign fs then "chord_mode"
      else "multi_note" }

/-! ## Gesture recognizer: note zones -/

/-- The chromatic note names used by `_get_note_name`. -/
def noteNames : List String :=
  ["C", "C#", "D", "D#", "E", "F"] ++ ["F#", "G", "G#", "A", "A#", "B"]

/-- `GestureRecognizer._get_note_name`: `notes[note_index % 12]` followed by
`str(note_index // 12)`. -/
def get_note_name (note_index : ℕ) : String :=
  (noteNames.get ⟨note_index % 12, Nat.mod_lt _ (by decide)⟩) ++ toString (note_index / 12)

/-- One zone dictionary entry of `_create_note_zones`, keyed by its note
name. -/
structure NoteZone where
  note_name : String
  x_start : ℚ
  x_end : ℚ
  y_start : ℚ
  y_end : ℚ
  note_number : ℤ
deriving DecidableEq, Repr

/-- `GestureRecognizer._create_note_zones`: the 7×5 grid, `octave` outer and
`zone` inner, in dict insertion order.  `note_index = octave*12 + zone*2`,
`note_number = note_index + 60`.  The float products `zone * 0.2`,
`(zone+1) * 0.2`, `octave * 0.14` and `(octave+1) * 0.14` are written as the
exact rationals `zone/5` and `7*octave/50` (`mkRat` keeps the grid
kernel-computable; the values are the same). -/
def note_zones : List NoteZone :=
  (List.range 7).flatMap fun octave =>
    (List.range 5).map fun zone =>
      let note_index := octave * 12 + zone * 2
      { note_name := get_note_name note_index
        x_start := mkRat zone 5
        x_end := mkRat (zone + 1) 5
        y_start := mkRat (7 * octave) 50
        y_end := mkRat (7 * (octave + 1)) 50
        note_number := (note_index : ℤ) + 60 }

/-- The geometric test of `_position_to_note`: both bounds inclusive
(`x_range[0] <= x <= x_range[1]`, and likewise for y). -/
def inZone (z : NoteZone) (x y : ℚ) : Bool :=
  z.x_start ≤ x && x ≤ z.x_end && z.y_start ≤ y && y ≤ z.y_end

/-- `GestureRecognizer._position_to_note`: first zone (in dict order) whose
rectangle contains the point; `None` when no zone matches. -/
def position_to_note (x y : ℚ) : Option (String × ℤ) :=
  (note_zones.find? fun z => inZone z x y).map fun z => (z.note_name, z.note_number)

/-! ## Gesture recognizer: hand-pose records and `analyze_hand`

`np.sqrt` is abstracted as an explicit function parameter `sq` (no claim
depends on its values) and `time.time()` as an explicit `now` parameter. -/

/-- The `finger_positions` dictionary produced by the hand tracker: its
`tips` key maps finger names to pixel positions (dict as an assoc list in
insertion order); `none` for `tips` models a `finger_positions` dict without
a `'tips'` key (in particular the empty dict `{}`, which is also falsy). -/
structure FingerPositions where
  tips : Option (List (String × ℚ × ℚ))
deriving DecidableEq, Repr

/-- The `gesture_features` dictionary fields read by the recognizer
(`finger_states` and `hand_size`; a missing or empty inner dict is `none`). -/
structure GestureFeatures where
  finger_states : Option FingerStates
  hand_size : Option ℚ
deriving DecidableEq, Repr

/-- A hand-pose record (`hand_data` dict): each key the recognizer reads may
be absent. -/
structure HandData where
  handedness : Option String
  center : Option (ℚ × ℚ)
  finger_positions : Option FingerPositions
  gesture_features : Option GestureFeatures
deriving DecidableEq, Repr

/-- One entry of `self.previous_positions`: the most recent center,
timestamp and finger positions stored for a handedness tag. -/
structure PrevData where
  center : ℚ × ℚ
  timestamp : ℚ
  finger_positions : FingerPositions
deriving DecidableEq, Repr

/-- `GestureRecognizer` state: the `previous_positions` dict (assoc list
keyed by handedness). -/
structure RecState where
  previous_positions : List (String × PrevData)
deriving DecidableEq, Repr

/-- `self.previous_positions[handedness]` lookup (`in` test and access). -/
def lookupPrev (st : RecState) (handedness : String) : Option PrevData :=
  (st.previous_positions.find? fun p => p.1 = handedness).map (·.2)

/-- `self.previous_positions[handedness] = {...}`: dict insert/replace. -/
def insertPrev (st : RecState) (handedness : String) (d : PrevData) : RecState :=
  { previous_positions :=
      (st.previous_positions.filter fun p => p.1 ≠ handedness) ++ [(handedness, d)] }

/-- `self.velocity_threshold = 50.0` (pixels per second). -/
def velocity_threshold : ℚ := 50

/-- `GestureRecognizer._calculate_note_velocity`: base velocity 64 scaled by
a hand-size factor and a movement-speed factor, truncated to int and clamped
to [1,127].  Reads `hand_data['center']` (a possible `KeyError`) only when a
previous position exists for this handedness. -/
def calculate_note_velocity (sq : ℚ → ℚ) (st : RecState) (hd : HandData) (now : ℚ) :
    Except String ℤ :=
  let hand_size := ((hd.gesture_features.bind (·.hand_size)).getD 100)
  let size_factor := min (hand_size / 100) 2
  let handedness := hd.handedness.getD "Unknown"
  match lookupPrev st handedness with
  | none =>
    .ok (max 1 (min 127 (pyInt (64 * size_factor * 1))))
  | some prev =>
    match hd.center with
    | none => .error "KeyError: center"
    | some current_center =>
      let time_diff := now - prev.timestamp
      let speed_factor :=
        if 0 < time_diff then
          let speed := sq ((current_center.1 - prev.center.1) ^ 2 +
            (current_center.2 - prev.center.2) ^ 2) / time_diff
          min (speed / 100) 2
        else 1
      .ok (max 1 (min 127 (pyInt (64 * size_factor * speed_factor))))

/-- The note dictionary built for one extended finger whose tip resolves to
a zone. -/
def fingerNote (finger_name note_name : String) (note_number velocity : ℤ) : NoteData :=
  { note_number := some note_number, velocity := some velocity,
    note_name := some note_name, finger := some finger_name }

/-- The `for finger_name, tip_position in finger_positions['tips'].items()`
loop of `_analyze_finger_positions`: extended fingers only, tip normalized
by the 640×480 frame, zone lookup, then velocity. -/
def finger_notes_loop (sq : ℚ → ℚ) (st : RecState) (hd : HandData) (now : ℚ)
    (fs : Option FingerStates) :
    List (String × ℚ × ℚ) → Except String (List NoteData)
  | [] => .ok []
  | (finger_name, tip_position) :: rest =>
    if fsGet fs finger_name then
      let norm_x := tip_position.1 / 640
      let norm_y := tip_position.2 / 480
      match position_to_note norm_x norm_y with
      | some (note_name, note_number) =>
        match calculate_note_velocity sq st hd now with
        | .error e => .error e
        | .ok velocity =>
          match finger_notes_loop sq st hd now fs rest with
          | .error e => .error e
          | .ok notes => .ok (fingerNote finger_name note_name note_number velocity :: notes)
      | none => finger_notes_loop sq st hd now fs rest
    else finger_notes_loop sq st hd now fs rest

/-- `GestureRecognizer._analyze_finger_positions`: empty when
`finger_positions` is missing/empty or has no `tips` key. -/
def analyze_finger_positions (sq : ℚ → ℚ) (st : RecState) (hd : HandData) (now : ℚ) :
    Except String (List NoteData) :=
  match hd.finger_positions with
  | none => .ok []
  | some fp =>
    match fp.tips with
    | none => .ok []
    | some tips =>
      finger_notes_loop sq st hd now (hd.gesture_features.bind (·.finger_states)) tips

/-- `GestureRecognizer._analyze_hand_movement`: reads `hand_data['center']`
unconditionally (a `KeyError` when absent); with no previous position the
controls stay empty; otherwise fast motion maps to pitch bend (horizontal)
or modulation (vertical), and position/volume controls are always set when
the time difference is positive. -/
def analyze_hand_movement (sq : ℚ → ℚ) (st : RecState) (hd : HandData)
    (handedness : String) (now : ℚ) : Except String Controls :=
  match hd.center with
  | none => .error "KeyError: center"
  | some current_center =>
    match lookupPrev st handedness with
    | none => .ok emptyControls
    | some prev =>
      let time_diff := now - prev.timestamp
      if 0 < time_diff then
        let dx := current_center.1 - prev.center.1
        let dy := current_center.2 - prev.center.2
        let velocity := sq (dx ^ 2 + dy ^ 2) / time_diff
        let c0 :=
          if velocity_threshold < velocity then
            if |dy| < |dx| then
              { emptyControls with
                  pitch_bend := some ((if 0 < dx then 1 else -1) * min (velocity / 100) 1) }
            else
              { emptyControls with
                  modulation := some ((if dy < 0 then 1 else -1) * min (velocity / 100) 1) }
          else emptyControls
        let norm_y := current_center.2 / 480
        .ok { c0 with
                position_x := some (current_center.1 / 640)
                position_y := some norm_y
                volume := some (max (mkRat 1 10) (1 - norm_y)) }
      else .ok emptyControls

/-- `GestureRecognizer.analyze_hand`: finger notes, movement controls and
pattern classification assembled into the gesture dict, then the
`previous_positions` store, which reads `hand_data['center']` and
`hand_data['finger_positions']` unconditionally (a `KeyError` when either is
absent).  The unused `movements` key is omitted. -/
def analyze_hand (sq : ℚ → ℚ) (st : RecState) (hd : HandData) (now : ℚ) :
    Except String (RecState × Gestures) :=
  let handedness := hd.handedness.getD "Unknown"
  match analyze_finger_positions sq st hd now with
  | .error e => .error e
  | .ok finger_notes =>
    match analyze_hand_movement sq st hd handedness now with
    | .error e => .error e
    | .ok movement_controls =>
      let patterns :=
        recognize_gesture_patterns ((hd.gesture_features.bind (·.finger_states)).getD allFalse)
      match hd.center with
      | none => .error "KeyError: center"
      | some c =>
        match hd.finger_positions with
        | none => .error "KeyError: finger_positions"
        | some fp =>
          .ok (insertPrev st handedness ⟨c, now, fp⟩,
               { handedness := handedness
                 timestamp := now
                 notes := finger_notes
                 controls := movement_controls
                 extended_fingers := some patterns.extended_fingers
                 gesture_type := some patterns.gesture_type
                 action := some patterns.action })

/-! ## Audio engine: ADSR envelope (`audio_engine.py`) -/

/-- `attack_time = 0.1` in `_calculate_envelope`. -/
def attack_time : ℚ := mkRat 1 10

/-- `decay_time = 0.2` in `_calculate_envelope`. -/
def decay_time : ℚ := mkRat 1 5

/-- `sustain_level = 0.7` in `_calculate_envelope`. -/
def sustain_level : ℚ := mkRat 7 10

/-- `release_time = 0.3` in `_calculate_envelope`. -/
def release_time : ℚ := mkRat 3 10

/-- `AudioEngine.note_duration = 0.5`, the total duration used for every
synthesized voice. -/
def note_duration : ℚ := mkRat 1 2

/-- `AudioEngine._calculate_envelope`: attack, decay, sustain and release
branches tried in that order. -/
def calculate_envelope (t duration : ℚ) : ℚ :=
  if t < attack_time then
    t / attack_time
  else if t < attack_time + decay_time then
    1 - (1 - sustain_level) * ((t - attack_time) / decay_time)
  else if t < duration - release_time then
    sustain_level
  else
    sustain_level * (1 - (t - (duration - release_time)) / release_time)

end HGMusic

/-!
## Helper lemmas
-/

namespace HGMusic

/-- `_create_note_event` called with the lock free always returns (it never
blocks), leaves the lock free, and does not touch the sustain flag. -/
lemma create_note_event_ok (s : MidiState) (nd : NoteData) (hl : s.note_lock = false) :
    ∃ s1 ev, create_note_event s nd = some (s1, ev) ∧ s1.note_lock = false ∧
      s1.sustain_pedal = s.sustain_pedal := by
  cases hnd : nd.note_number with
  | none => exact ⟨s, none, by simp [create_note_event, hnd], hl, rfl⟩
  | some n0 =>
    by_cases hmem : max 0 (min 127 n0) ∈ s.current_notes
    · exact ⟨{ s with note_lock := false }, none,
        by simp [create_note_event, hnd, acquire, hl, hmem, release], rfl, rfl⟩
    · exact ⟨MidiState.mk (s.current_notes ++ [max 0 (min 127 n0)]) s.sustain_pedal false,
        some (.note_on (max 0 (min 127 n0))
          (max 1 (min 127 (nd.velocity.getD default_velocity))) default_channel),
        by simp [create_note_event, hnd, acquire, hl, hmem, release], rfl, rfl⟩

/-- The note-trigger loop of `process_gestures` never blocks when the lock is
free, keeps it free, and does not touch the sustain flag. -/
lemma process_notes_ok (l : List NoteData) (s : MidiState) (hl : s.note_lock = false) :
    ∃ s2 evs, process_notes s l = some (s2, evs) ∧ s2.note_lock = false ∧
      s2.sustain_pedal = s.sustain_pedal := by
  induction l generalizing s with
  | nil => exact ⟨s, [], rfl, hl, rfl⟩
  | cons nd rest ih =>
    obtain ⟨s1, ev, h1, hl1, hs1⟩ := create_note_event_ok s nd hl
    obtain ⟨s2, evs, h2, hl2, hs2⟩ := ih s1 hl1
    exact ⟨s2, ev.toList ++ evs, by simp [process_notes, h1, h2], hl2, hs2.trans hs1⟩

/-- A point inside some listed zone makes `_position_to_note` return a
match. -/
lemma position_to_note_isSome (x y : ℚ) (z : NoteZone) (hz : z ∈ note_zones)
    (h : inZone z x y = true) : (position_to_note x y).isSome = true := by
  have hfind : (note_zones.find? fun w => inZone w x y).isSome = true :=
    List.find?_isSome.mpr ⟨z, hz, h⟩
  simp [position_to_note, Option.isSome_map, hfind]

/-!
## Claims C1 and C2: the StopAll action
-/

/-- **C1** (`StopAll` law, a code bug): the spec's StopAll law is the
documented intent of `_stop_all_notes`, but on the code a StopAll with one
active pitch emits nothing and never returns: `_stop_all_notes` holds the
non-reentrant `note_lock` while `_stop_note` re-acquires it. -/
theorem stop_all_with_active_note_blocks :
    stop_all_notes ⟨[60], false, false⟩ = none := rfl

/-- **C2** (confirmed): processing a StopAll gesture with at least one
active note never terminates — `_stop_all_notes` acquires `note_lock` and,
still holding it, calls `_stop_note`, which blocks acquiring the same
non-reentrant lock (`none` models the call never returning). -/
theorem stop_all_with_nonempty_set_never_terminates (s : MidiState) (g : Gestures)
    (hl : s.note_lock = false) (ha : g.action = some "stop_all_notes")
    (hn : s.current_notes ≠ []) :
    process_gestures s g = none := by
  obtain ⟨n, rest, hcons⟩ := List.exists_cons_of_ne_nil hn
  simp [process_gestures, ha, stop_all_notes, acquire, hl, hcons, stop_all_notes_loop,
    stop_note]

/-- Witness for C2 at a concrete state and gesture frame. -/
theorem stop_all_with_nonempty_set_never_terminates_witness :
    process_gestures ⟨[60], false, false⟩
      ⟨"Right", 0, [], emptyControls, some 1, some "fist", some "stop_all_notes"⟩ = none :=
  stop_all_with_nonempty_set_never_terminates ⟨[60], false, false⟩
    ⟨"Right", 0, [], emptyControls, some 1, some "fist", some "stop_all_notes"⟩
    rfl rfl (by decide)

/-!
## Claim C3: note-trigger de-duplication
-/

/-- **C3** (confirmed): with the clamped pitch not yet active, the first
trigger emits a note-on and records the pitch; an identical second trigger
is a no-op (state unchanged, no event); a note-off removes the pitch and
restores exactly the pre-trigger state, so the first conjunct also gives
that a subsequent identical trigger emits a new note-on. -/
theorem note_trigger_dedup (notes : List ℤ) (sus : Bool) (nd : NoteData) (p p' v : ℤ)
    (hp : nd.note_number = some p) (hp' : p' = max 0 (min 127 p))
    (hv : v = max 1 (min 127 (nd.velocity.getD default_velocity)))
    (hmem : p' ∉ notes) :
    create_note_event ⟨notes, sus, false⟩ nd =
      some (⟨notes ++ [p'], sus, false⟩, some (.note_on p' v default_channel)) ∧
    create_note_event ⟨notes ++ [p'], sus, false⟩ nd =
      some (⟨notes ++ [p'], sus, false⟩, none) ∧
    stop_note ⟨notes ++ [p'], sus, false⟩ p' =
      some (⟨notes, sus, false⟩, .note_off p' 0 default_channel) := by
  subst hp'
  subst hv
  refine ⟨?_, ?_, ?_⟩
  · simp [create_note_event, hp, acquire, release, hmem]
  · simp [create_note_event, hp, acquire, release]
  · simp [stop_note, acquire, release, List.erase_append_right _ hmem]

/-- Witness for C3: pitch 60, velocity 100, starting from an empty active
set. -/
theorem note_trigger_dedup_witness :
    create_note_event ⟨[], false, false⟩ ⟨some 60, some 100, some "C4", some "index"⟩ =
      some (⟨[60], false, false⟩, some (.note_on 60 100 default_channel)) ∧
    create_note_event ⟨[60], false, false⟩ ⟨some 60, some 100, some "C4", some "index"⟩ =
      some (⟨[60], false, false⟩, none) ∧
    stop_note ⟨[60], false, false⟩ 60 =
      some (⟨[], false, false⟩, .note_off 60 0 default_channel) :=
  note_trigger_dedup [] false ⟨some 60, some 100, some "C4", some "index"⟩ 60 60 100
    rfl (by decide) (by decide) (by decide)

/-!
## Claim C4: sustain reset on non-Sustain frames
-/

/-- **C4 counterexample**: a StopAll frame (empty active set, sustain flag
on) leaves the sustain flag `true` and emits no events at all — in
particular no ControlChange(64, 0) — because the stop-all branch of
`process_gestures` bypasses the sustain-reset `else` branch. -/
theorem stop_all_frame_skips_sustain_reset :
    process_gestures ⟨[], true, false⟩
      ⟨"Right", 0, [], emptyControls, some 0, some "fist", some "stop_all_notes"⟩ =
      some (⟨[], true, false⟩, []) := rfl

/-- **C4 amended**: on every processed frame whose action is neither
`Sustain` nor `StopAll`, the sequencer sets the sustain flag false and the
first emitted event is ControlChange(64, 0); a StopAll frame skips both
(see the counterexample). -/
theorem non_sustain_frame_resets_sustain (s : MidiState) (g : Gestures)
    (hl : s.note_lock = false)
    (ha1 : g.action ≠ some "sustain_notes") (ha2 : g.action ≠ some "stop_all_notes") :
    ∃ s2 evs, process_gestures s g = some (s2, evs) ∧
      s2.sustain_pedal = false ∧
      evs.head? = some (.control_change 64 0 default_channel) := by
  obtain ⟨s2, evs2, h2, hl2, hs2⟩ :=
    process_notes_ok g.notes { s with sustain_pedal := false } hl
  refine ⟨s2, [create_sustain_event false] ++ evs2 ++ process_controls g.controls,
    ?_, by simpa using hs2, by simp [create_sustain_event]⟩
  simp [process_gestures, ha1, ha2, h2]

/-- Witness for C4-amended: a MultiNote frame with one note, starting with
the sustain flag on. -/
theorem non_sustain_frame_resets_sustain_witness :
    ∃ s2 evs, process_gestures ⟨[], true, false⟩
      ⟨"Right", 0, [⟨some 60, some 100, some "C4", some "index"⟩], emptyControls,
        some 3, some "custom", some "multi_note"⟩ = some (s2, evs) ∧
      s2.sustain_pedal = false ∧
      evs.head? = some (.control_change 64 0 default_channel) :=
  non_sustain_frame_resets_sustain ⟨[], true, false⟩
    ⟨"Right", 0, [⟨some 60, some 100, some "C4", some "index"⟩], emptyControls,
      some 3, some "custom", some "multi_note"⟩
    rfl (by decide) (by decide)

/-!
## Claim C5: pattern-classification priority
-/

/-- **C5 counterexample**: a hand with exactly thumb and index extended is
classified `single_note`, not `multi_note`: `_is_pointing` never consults
the thumb. -/
theorem thumb_and_index_classified_single_note :
    (recognize_gesture_patterns ⟨true, true, false, false, false⟩).action = "single_note" ∧
    "single_note" ≠ "multi_note" := by decide

/-- **C5 amended**: classification follows the strict priority order
0 extended → StopAll, ≥ 4 extended → Sustain, then SingleNote/ChordMode
whose finger tests consult only index, middle, ring and pinky (the thumb is
ignored), then MultiNote. -/
theorem classification_priority (fs : FingerStates) :
    (recognize_gesture_patterns fs).action =
      if extendedCount fs = 0 then "stop_all_notes"
      else if 4 ≤ extendedCount fs then "sustain_notes"
      else if fs.index = true ∧ fs.middle = false ∧ fs.ring = false ∧ fs.pinky = false then
        "single_note"
      else if fs.index = true ∧ fs.middle = true ∧ fs.ring = false ∧ fs.pinky = false then
        "chord_mode"
      else "multi_note" := by
  obtain ⟨t, i, m, r, p⟩ := fs
  cases t <;> cases i <;> cases m <;> cases r <;> cases p <;> decide

/-- Witness for C5-amended: two fingers (index+middle) classified as
ChordMode through the priority chain. -/
theorem classification_priority_witness :
    (recognize_gesture_patterns ⟨false, true, true, false, false⟩).action =
      if extendedCount ⟨false, true, true, false, false⟩ = 0 then "stop_all_notes"
      else if 4 ≤ extendedCount ⟨false, true, true, false, false⟩ then "sustain_notes"
      else if (true = true ∧ true = false ∧ false = false ∧ false = false) then "single_note"
      else if (true = true ∧ true = true ∧ false = false ∧ false = false) then "chord_mode"
      else "multi_note" :=
  classification_priority ⟨false, true, true, false, false⟩

/-!
## Claim C6: coordinates at and outside the grid boundary
-/

/-- **C6 counterexample**: the zone test is inclusive on both ends
(`x_range[0] <= x <= x_range[1]`) and zone 4 ends exactly at 5·0.2 = 1.0,
so x = 1.0 yields a note (here octave 3, pitch 104) rather than none. -/
theorem x_boundary_yields_note :
    position_to_note 1 (mkRat 1 2) = some ("G#3", 104) ∧
    position_to_note 1 (mkRat 1 2) ≠ none := by decide

/-- **C6 amended**: points outside every (closed) zone rectangle yield no
note, and any y beyond the vertical extent 7·0.14 = 0.98 yields no note for
every x; but x = 1.0 is not outside the grid: the zone rectangles are
closed, so (1.0, y) yields a note for every y in [0, 0.98]. -/
theorem position_to_note_grid_bounds :
    (∀ x y : ℚ, (∀ z ∈ note_zones, inZone z x y = false) → position_to_note x y = none) ∧
    (∀ x y : ℚ, mkRat 49 50 < y → position_to_note x y = none) ∧
    (∀ y : ℚ, 0 ≤ y → y ≤ mkRat 49 50 → (position_to_note 1 y).isSome = true) := by
  refine ⟨?_, ?_, ?_⟩
  · intro x y h
    have hfind : note_zones.find? (fun z => inZone z x y) = none :=
      List.find?_eq_none.mpr fun z hz => by simp [h z hz]
    simp [position_to_note, hfind]
  · intro x y hy
    have hb : ∀ z ∈ note_zones, z.y_end ≤ mkRat 49 50 := by decide
    have hfind : note_zones.find? (fun z => inZone z x y) = none :=
      List.find?_eq_none.mpr fun z hz => by
        have h1 : ¬(y ≤ z.y_end) := not_le.mpr (lt_of_le_of_lt (hb z hz) hy)
        simp [inZone, h1]
    simp [position_to_note, hfind]
  · intro y h0 h1
    rcases le_or_lt y (mkRat 7 50) with h | hgt0
    · refine position_to_note_isSome 1 y ⟨"G#0", mkRat 4 5, 1, 0, mkRat 7 50, 68⟩ (by decide) ?_
      simp only [inZone, Bool.and_eq_true, decide_eq_true_eq]
      exact ⟨⟨⟨by decide, by decide⟩, h0⟩, h⟩
    rcases le_or_lt y (mkRat 14 50) with h | hgt1
    · refine position_to_note_isSome 1 y
        ⟨"G#1", mkRat 4 5, 1, mkRat 7 50, mkRat 14 50, 80⟩ (by decide) ?_
      simp only [inZone, Bool.and_eq_true, decide_eq_true_eq]
      exact ⟨⟨⟨by decide, by decide⟩, le_of_lt hgt0⟩, h⟩
    rcases le_or_lt y (mkRat 21 50) with h | hgt2
    · refine position_to_note_isSome 1 y
        ⟨"G#2", mkRat 4 5, 1, mkRat 14 50, mkRat 21 50, 92⟩ (by decide) ?_
      simp only [inZone, Bool.and_eq_true, decide_eq_true_eq]
      exact ⟨⟨⟨by decide, by decide⟩, le_of_lt hgt1⟩, h⟩
    rcases le_or_lt y (mkRat 28 50) with h | hgt3
    · refine position_to_note_isSome 1 y
        ⟨"G#3", mkRat 4 5, 1, mkRat 21 50, mkRat 28 50, 104⟩ (by decide) ?_
      simp only [inZone, Bool.and_eq_true, decide_eq_true_eq]
      exact ⟨⟨⟨by decide, by decide⟩, le_of_lt hgt2⟩, h⟩
    rcases le_or_lt y (mkRat 35 50) with h | hgt4
    · refine position_to_note_isSome 1 y
        ⟨"G#4", mkRat 4 5, 1, mkRat 28 50, mkRat 35 50, 116⟩ (by decide) ?_
      simp only [inZone, Bool.and_eq_true, decide_eq_true_eq]
      exact ⟨⟨⟨by decide, by decide⟩, le_of_lt hgt3⟩, h⟩
    rcases le_or_lt y (mkRat 42 50) with h | hgt5
    · refine position_to_note_isSome 1 y
        ⟨"G#5", mkRat 4 5, 1, mkRat 35 50, mkRat 42 50, 128⟩ (by decide) ?_
      simp only [inZone, Bool.and_eq_true, decide_eq_true_eq]
      exact ⟨⟨⟨by decide, by decide⟩, le_of_lt hgt4⟩, h⟩
    · refine position_to_note_isSome 1 y
        ⟨"G#6", mkRat 4 5, 1, mkRat 42 50, mkRat 49 50, 140⟩ (by decide) ?_
      simp only [inZone, Bool.and_eq_true, decide_eq_true_eq]
      exact ⟨⟨⟨by decide, by decide⟩, le_of_lt hgt5⟩, h1⟩

/-- Witness for C6-amended at concrete points. -/
theorem position_to_note_grid_bounds_witness :
    position_to_note 2 3 = none ∧ position_to_note 0 1 = none ∧
    (position_to_note 1 (mkRat 1 2)).isSome = true :=
  ⟨position_to_note_grid_bounds.1 2 3 (by decide),
   position_to_note_grid_bounds.2.1 0 1 (by decide),
   position_to_note_grid_bounds.2.2 (mkRat 1 2) (by decide) (by decide)⟩

/-!
## Claim C7: ADSR envelope boundary values
-/

/-- `attack_time + decay_time = 0.3` as an exact rational. -/
lemma attack_add_decay : attack_time + decay_time = mkRat 3 10 := by
  rw [attack_time, decay_time, Rat.mkRat_eq_div, Rat.mkRat_eq_div, Rat.mkRat_eq_div]
  norm_num

/-- **C7 counterexample**: with total duration D = 0.5 the sustain window
[attack+decay, D−release) is empty (0.3 > 0.2), so t = attack+decay falls in
the release branch: the envelope there is 7/15, not the sustain level 0.7. -/
theorem envelope_at_end_of_decay :
    calculate_envelope (attack_time + decay_time) note_duration = mkRat 7 15 ∧
    (mkRat 7 15 : ℚ) ≠ sustain_level := by
  constructor
  · norm_num [calculate_envelope, attack_time, decay_time, sustain_level, release_time,
      note_duration, Rat.mkRat_eq_div]
  · decide

/-- **C7 amended**: over D = 0.5, envelope(0) = 0, envelope(attack) = 1,
envelope(D) = 0 and the envelope is monotone within each effective phase
(attack rising on [0, attack), decay falling on [attack, attack+decay),
release falling on [attack+decay, ∞)); but envelope(attack+decay) = 7/15,
not the sustain level 0.7, because D − release < attack + decay leaves the
sustain phase empty. -/
theorem envelope_boundary_and_monotonicity :
    calculate_envelope 0 note_duration = 0 ∧
    calculate_envelope attack_time note_duration = 1 ∧
    calculate_envelope (attack_time + decay_time) note_duration = mkRat 7 15 ∧
    calculate_envelope note_duration note_duration = 0 ∧
    (∀ t1 t2 : ℚ, 0 ≤ t1 → t1 ≤ t2 → t2 < attack_time →
      calculate_envelope t1 note_duration ≤ calculate_envelope t2 note_duration) ∧
    (∀ t1 t2 : ℚ, attack_time ≤ t1 → t1 ≤ t2 → t2 < attack_time + decay_time →
      calculate_envelope t2 note_duration ≤ calculate_envelope t1 note_duration) ∧
    (∀ t1 t2 : ℚ, attack_time + decay_time ≤ t1 → t1 ≤ t2 →
      calculate_envelope t2 note_duration ≤ calculate_envelope t1 note_duration) := by
  have ha : attack_time = 1/10 := by rw [attack_time, Rat.mkRat_eq_div]; norm_num
  have hd : decay_time = 1/5 := by rw [decay_time, Rat.mkRat_eq_div]; norm_num
  have hs : sustain_level = 7/10 := by rw [sustain_level, Rat.mkRat_eq_div]; norm_num
  have hr : release_time = 3/10 := by rw [release_time, Rat.mkRat_eq_div]; norm_num
  have hn : note_duration = 1/2 := by rw [note_duration, Rat.mkRat_eq_div]; norm_num
  refine ⟨?_, ?_, ?_, ?_, ?_, ?_, ?_⟩
  · norm_num [calculate_envelope, ha, hd, hs, hr, hn]
  · norm_num [calculate_envelope, ha, hd, hs, hr, hn]
  · norm_num [calculate_envelope, ha, hd, hs, hr, hn, Rat.mkRat_eq_div]
  · norm_num [calculate_envelope, ha, hd, hs, hr, hn]
  · intro t1 t2 h0 h12 h2
    rw [calculate_envelope, calculate_envelope, if_pos (lt_of_le_of_lt h12 h2), if_pos h2, ha]
    rw [div_le_div_iff₀ (by norm_num) (by norm_num)]
    linarith
  · intro t1 t2 hg1 h12 h2
    have h1 : t1 < attack_time + decay_time := lt_of_le_of_lt h12 h2
    rw [calculate_envelope, calculate_envelope,
      if_neg (not_lt.mpr (le_trans hg1 h12)), if_neg (not_lt.mpr hg1),
      if_pos h2, if_pos h1, ha, hd, hs]
    have e1 : (t1 - 1/10) / (1/5 : ℚ) = 5 * (t1 - 1/10) := by ring
    have e2 : (t2 - 1/10) / (1/5 : ℚ) = 5 * (t2 - 1/10) := by ring
    rw [e1, e2]
    linarith
  · intro t1 t2 hg1 h12
    have hadd : attack_time + decay_time = mkRat 3 10 := attack_add_decay
    have hg1q : (3/10 : ℚ) ≤ t1 := by
      have := hg1
      rw [hadd, Rat.mkRat_eq_div] at this
      exact_mod_cast by norm_num at this ⊢; exact this
    have hg2q : (3/10 : ℚ) ≤ t2 := le_trans hg1q h12
    rw [calculate_envelope, calculate_envelope,
      if_neg (by rw [ha]; exact not_lt.mpr (by linarith)),
      if_neg (by rw [ha, hd]; exact not_lt.mpr (by linarith)),
      if_neg (by rw [hn, hr]; exact not_lt.mpr (by linarith)),
      if_neg (by rw [ha]; exact not_lt.mpr (by linarith)),
      if_neg (by rw [ha, hd]; exact not_lt.mpr (by linarith)),
      if_neg (by rw [hn, hr]; exact not_lt.mpr (by linarith)),
      hs, hr, hn]
    have e1 : (t1 - (1/2 - 3/10)) / (3/10 : ℚ) = (10/3) * (t1 - 1/5) := by ring
    have e2 : (t2 - (1/2 - 3/10)) / (3/10 : ℚ) = (10/3) * (t2 - 1/5) := by ring
    rw [e1, e2]
    linarith

/-- Witness for C7-amended: boundary value at 0 and one instance of each
monotone phase. -/
theorem envelope_boundary_and_monotonicity_witness :
    calculate_envelope 0 note_duration = 0 ∧
    calculate_envelope 0 note_duration ≤ calculate_envelope (mkRat 1 20) note_duration ∧
    calculate_envelope (mkRat 1 5) note_duration ≤
      calculate_envelope (mkRat 1 10) note_duration ∧
    calculate_envelope (mkRat 2 5) note_duration ≤
      calculate_envelope (mkRat 3 10) note_duration :=
  ⟨envelope_boundary_and_monotonicity.1,
   envelope_boundary_and_monotonicity.2.2.2.2.1 0 (mkRat 1 20) le_rfl (by decide)
     (by decide),
   envelope_boundary_and_monotonicity.2.2.2.2.2.1 (mkRat 1 10) (mkRat 1 5) (by decide)
     (by decide) (by rw [attack_add_decay]; decide),
   envelope_boundary_and_monotonicity.2.2.2.2.2.2 (mkRat 3 10) (mkRat 2 5)
     (by rw [attack_add_decay]) (by decide)⟩

/-!
## Claim C8: pitch-bend encoding
-/

/-- **C8 counterexample**: encoding uses Python `int()` (truncation), not
rounding: at pitch_bend = 3/16384 the emitted 14-bit value is 8193, while
the claim's `round` formula gives 8194. -/
theorem pitch_bend_truncates_not_rounds :
    process_controls ⟨some (mkRat 3 16384), none, none, none, none⟩ =
      [.pitchwheel 8193 default_channel] ∧
    max 0 (min 16383 (round ((mkRat 3 16384 : ℚ) * 8192 + 8192))) = (8194 : ℤ) := by
  constructor
  · simp only [process_controls, pyInt]
    rw [Rat.mkRat_eq_div]
    norm_num
  · rw [Rat.mkRat_eq_div]
    norm_num [round_eq]

/-- **C8 amended**: for pitch_bend v in [-1, 1] the emitted PitchWheel value
is `trunc(v·8192 + 8192)` — equal to `floor` since the argument is
nonnegative — clamped to [0, 16383], and decoding `(value − 8192)/8192`
recovers v to within 1/8192. -/
theorem pitch_bend_encode_decode (v : ℚ) (h1 : -1 ≤ v) (h2 : v ≤ 1) :
    process_controls ⟨some v, none, none, none, none⟩ =
      [.pitchwheel (max 0 (min 16383 ⌊v * 8192 + 8192⌋)) default_channel] ∧
    |(((max 0 (min 16383 ⌊v * 8192 + 8192⌋) : ℤ) : ℚ) - 8192) / 8192 - v| ≤ mkRat 1 8192 := by
  have hx0 : (0:ℚ) ≤ v * 8192 + 8192 := by linarith
  have hpy : pyInt (v * 8192 + 8192) = ⌊v * 8192 + 8192⌋ := by simp [pyInt, hx0]
  refine ⟨by simp [process_controls, hpy], ?_⟩
  rw [Rat.mkRat_eq_div]
  have hfl : ((⌊v * 8192 + 8192⌋ : ℤ) : ℚ) ≤ v * 8192 + 8192 := Int.floor_le _
  have hfu : v * 8192 + 8192 < (⌊v * 8192 + 8192⌋ : ℤ) + 1 := Int.lt_floor_add_one _
  have h0n : (0:ℤ) ≤ ⌊v * 8192 + 8192⌋ := Int.le_floor.mpr (by push_cast; linarith)
  have hub : ⌊v * 8192 + 8192⌋ ≤ 16384 := by
    have h16 : ((⌊v * 8192 + 8192⌋ : ℤ) : ℚ) ≤ ((16384 : ℤ) : ℚ) := by
      push_cast
      linarith
    exact_mod_cast h16
  rcases le_or_lt (⌊v * 8192 + 8192⌋) 16383 with hle | hgt
  · have hmm : max 0 (min 16383 ⌊v * 8192 + 8192⌋) = ⌊v * 8192 + 8192⌋ := by omega
    rw [hmm, abs_le]
    push_cast
    constructor <;> linarith
  · have hn4 : ⌊v * 8192 + 8192⌋ = 16384 := by omega
    have hv1 : (1:ℚ) ≤ v := by
      have h16 : ((16384:ℤ) : ℚ) ≤ v * 8192 + 8192 := by rw [← hn4]; exact hfl
      push_cast at h16
      linarith
    have hmm : max 0 (min 16383 ⌊v * 8192 + 8192⌋) = 16383 := by omega
    rw [hmm, abs_le]
    push_cast
    constructor <;> linarith

/-- Witness for C8-amended at v = 0 (emits the centre value 8192). -/
theorem pitch_bend_encode_decode_witness :
    process_controls ⟨some 0, none, none, none, none⟩ =
      [.pitchwheel (max 0 (min 16383 ⌊(0:ℚ) * 8192 + 8192⌋)) default_channel] ∧
    |(((max 0 (min 16383 ⌊(0:ℚ) * 8192 + 8192⌋) : ℤ) : ℚ) - 8192) / 8192 - 0| ≤
      mkRat 1 8192 :=
  pitch_bend_encode_decode 0 (by decide) (by decide)

/-!
## Claim C9: malformed hand-pose records
-/

/-- **C9 counterexample**: a hand-pose record with no `center` entry makes
`analyze_hand` fail the frame with a KeyError (`_analyze_hand_movement`
reads `hand_data['center']` unconditionally) instead of returning an empty
intent. -/
theorem analyze_hand_missing_center_raises :
    analyze_hand id ⟨[]⟩ ⟨some "Right", none, some ⟨some []⟩, none⟩ 0 =
      .error "KeyError: center" := rfl

/-- **C9 amended**: `analyze_hand` raises a KeyError when `center` (or
`finger_positions`) is missing; a record that has both but whose
`finger_positions` carries no `tips` key — and whose handedness has no
stored previous position — yields an empty intent (no notes, no controls)
without failing. -/
theorem analyze_hand_no_tips_empty_intent (sq : ℚ → ℚ) (st : RecState)
    (h : Option String) (c : ℚ × ℚ) (gf : Option GestureFeatures) (now : ℚ)
    (hprev : lookupPrev st (h.getD "Unknown") = none) :
    ∃ st2 g, analyze_hand sq st ⟨h, some c, some ⟨none⟩, gf⟩ now = .ok (st2, g) ∧
      g.notes = [] ∧ g.controls = emptyControls := by
  simp only [analyze_hand, analyze_finger_positions, analyze_hand_movement, hprev]
  exact ⟨_, _, rfl, rfl, rfl⟩

/-- Witness for C9-amended: fresh recognizer, record with a center but no
finger-tip map. -/
theorem analyze_hand_no_tips_empty_intent_witness :
    ∃ st2 g, analyze_hand id ⟨[]⟩ ⟨some "Right", some (320, 240), some ⟨none⟩, none⟩ 0 =
      .ok (st2, g) ∧ g.notes = [] ∧ g.controls = emptyControls :=
  analyze_hand_no_tips_empty_intent id ⟨[]⟩ (some "Right") (320, 240) none 0 rfl

/-!
## Claim C10: zones above the MIDI range
-/

/-- **C10** (confirmed): zone construction has no upper clamp, so exactly
six grid zones — octave 5 zone 4 (pitch 128) and the five zones of octave 6
(132–140) — carry note numbers above 127; the sequencer clamps any trigger
from such a zone, producing a note-on at pitch 127. -/
theorem overflow_zones_all_clamp_to_127 :
    ((note_zones.filter fun z => 127 < z.note_number).map fun z =>
        (z.note_name, z.note_number)) =
      [("G#5", 128), ("C6", 132), ("D6", 134), ("E6", 136), ("F#6", 138), ("G#6", 140)] ∧
    ∀ z ∈ note_zones, 127 < z.note_number →
      ∀ (notes : List ℤ) (sus : Bool), (127:ℤ) ∉ notes →
        create_note_event ⟨notes, sus, false⟩
            ⟨some z.note_number, some 64, some z.note_name, none⟩ =
          some (⟨notes ++ [127], sus, false⟩, some (.note_on 127 64 default_channel)) := by
  refine ⟨by decide, ?_⟩
  intro z hz hgt notes sus hmem
  have hcl : max 0 (min 127 z.note_number) = 127 := by omega
  have hv : max 1 (min 127 ((some (64:ℤ)).getD default_velocity)) = 64 := by decide
  simp [create_note_event, acquire, release, hcl, hv, hmem]

/-- Witness for C10 at the octave-6 zone-4 zone (pitch 140) and an empty
active set. -/
theorem overflow_zones_all_clamp_to_127_witness :
    create_note_event ⟨[], false, false⟩ ⟨some 140, some 64, some "G#6", none⟩ =
      some (⟨[127], false, false⟩, some (.note_on 127 64 default_channel)) := by
  have hz : (⟨"G#6", mkRat 4 5, 1, mkRat 42 50, mkRat 49 50, 140⟩ : NoteZone) ∈ note_zones :=
    by decide
  exact overflow_zones_all_clamp_to_127.2 _ hz (by decide) [] false (by decide)

end HGMusic
